import Mathlib

/-
Verification of the Hestia user-sync core
(apps/api/src/modules/auth/userSync.ts and apps/api/src/routes/webhooks/clerk.ts),
shallowly embedded in Lean 4. Strings are Lean Strings; JavaScript Dates are
epoch milliseconds (Nat); nullable values are Option; the relational user table
is a list of rows; a Prisma transaction is a pure function that either returns
the committed table or an error (an error aborts, leaving the table unchanged).
-/

namespace Hestia

/-! ## String helpers mirroring the JavaScript primitives used by userSync.ts -/

/-- Whitespace class used by JS `trim` and the regex `\s` (space, tab, LF, CR). -/
def wsChar (c : Char) : Bool :=
  c == ' ' || c == '\t' || c == '\n' || c == '\r'

/-- Separator class of the regex `[._-]` in `formatDisplayName`. -/
def sepChar (c : Char) : Bool :=
  c == '.' || c == '_' || c == '-'

/-- Drop leading and trailing whitespace from a character list (JS `trim`). -/
def trimList (l : List Char) : List Char :=
  ((l.dropWhile wsChar).reverse.dropWhile wsChar).reverse

/-- JS `String.prototype.trim`. -/
def jsTrim (s : String) : String :=
  ⟨trimList s.data⟩

/-- JS `String.prototype.toLowerCase` (ASCII model). -/
def jsToLower (s : String) : String :=
  ⟨s.data.map Char.toLower⟩

/-- userSync.ts `normalizeEmail`: `email.trim().toLowerCase()`. -/
def normalizeEmail (email : String) : String :=
  jsToLower (jsTrim email)

/-- Whether the first list starts the second (helper for substring search). -/
def leadsWith : List Char → List Char → Bool
  | [], _ => true
  | _ :: _, [] => false
  | a :: as, b :: bs => a == b && leadsWith as bs

/-- Whether the needle occurs inside the haystack (JS `String.prototype.includes`). -/
def hasSub (needle : List Char) : List Char → Bool
  | [] => leadsWith needle []
  | c :: cs => leadsWith needle (c :: cs) || hasSub needle (cs)

/-- String-level wrapper for `hasSub`. -/
def hasSubStr (needle haystack : String) : Bool :=
  hasSub needle.data haystack.data

/-! ## formatDisplayName / resolveDisplayName (userSync.ts lines 43-76) -/

/-- Regex step `.replace([._-]+, space)`: each maximal run of separator
characters becomes a single space.  The Boolean argument records whether the
previous character was part of a separator run. -/
def replaceSepAux : Bool → List Char → List Char
  | _, [] => []
  | inRun, c :: cs =>
    if sepChar c then
      if inRun then replaceSepAux true cs
      else ' ' :: replaceSepAux true cs
    else c :: replaceSepAux false cs

/-- Regex step `.replace(\s+, space)`: collapse whitespace runs to one space. -/
def collapseWsAux : Bool → List Char → List Char
  | _, [] => []
  | inRun, c :: cs =>
    if wsChar c then
      if inRun then collapseWsAux true cs
      else ' ' :: collapseWsAux true cs
    else c :: collapseWsAux false cs

/-- JS `split(space)` on a character list. -/
def splitSpaceAux : List Char → List Char → List (List Char)
  | [], acc => [acc.reverse]
  | c :: cs, acc =>
    if c == ' ' then acc.reverse :: splitSpaceAux cs []
    else splitSpaceAux cs (c :: acc)

/-- `part.charAt(0).toUpperCase() + part.slice(1)`. -/
def capitalizeWord : List Char → List Char
  | [] => []
  | c :: cs => Char.toUpper c :: cs

/-- userSync.ts `formatDisplayName`: replace separator runs with spaces, trim,
collapse whitespace, split on spaces, drop empties, capitalize each word, and
join with single spaces. -/
def formatDisplayName (raw : String) : String :=
  ⟨List.intercalate [' ']
    (((splitSpaceAux
        (collapseWsAux false (trimList (replaceSepAux false raw.data))) []).filter
      (fun w => !w.isEmpty)).map capitalizeWord)⟩

/-- `email.split(atSign)[0]`: the part of the email before the first at sign. -/
def emailLocalPart (email : String) : String :=
  ⟨email.data.takeWhile (fun c => c != '@')⟩

/-- Tier 3/4 of `resolveDisplayName`: format the local part of the email,
falling back to the literal "User" when formatting yields the empty string. -/
def displayNameFromEmail (email : String) : String :=
  let f := formatDisplayName (emailLocalPart email)
  if f = "" then "User" else f

/-- userSync.ts `resolveDisplayName`: trimmed first+last name, else trimmed
username, else the formatted email local part, else "User". -/
def resolveDisplayName (firstName lastName username : Option String)
    (email : String) : String :=
  let name := jsTrim ((firstName.getD "") ++ " " ++ (lastName.getD ""))
  if name ≠ "" then name
  else
    match username with
    | some u => if jsTrim u ≠ "" then jsTrim u else displayNameFromEmail email
    | none => displayNameFromEmail email

/-! ## Identity and webhook payload shapes (modules/auth/types.ts) -/

/-- The `verification` sub-object of a Clerk email address; `status` may be
absent or any string. -/
structure EmailVerification where
  status : Option String
deriving DecidableEq

/-- One entry of `email_addresses` in a Clerk webhook user payload. -/
structure WebhookEmailAddress where
  id : String
  email_address : String
  verification : Option EmailVerification
deriving DecidableEq

/-- Clerk webhook user payload (`ClerkUserWebhookData` = Clerk `UserJSON`;
for `user.deleted` events the `id` field may be absent, hence Option).
Timestamps are epoch milliseconds. -/
structure ClerkUserWebhookData where
  id : Option String
  first_name : Option String
  last_name : Option String
  username : Option String
  image_url : Option String
  last_sign_in_at : Option Nat
  primary_email_address_id : Option String
  email_addresses : List WebhookEmailAddress
deriving DecidableEq

/-- Result shape of `getWebhookPrimaryEmail`. -/
structure PrimaryEmailData where
  email : Option String
  emailVerified : Bool
deriving DecidableEq

/-- The canonical identity value object produced by the resolvers. -/
structure ClerkIdentity where
  clerkUserId : String
  email : String
  displayName : String
  avatarUrl : Option String
  emailVerified : Bool
  lastLoginAt : Option Nat
deriving DecidableEq

/-- `selected.verification?.status === "verified"` for one email entry. -/
def entryVerified (e : WebhookEmailAddress) : Bool :=
  match e.verification with
  | some v => v.status == some "verified"
  | none => false

/-- The `find` over `email_addresses` keyed by `primary_email_address_id`;
a falsy (absent or empty) id skips the lookup, as in the source ternary. -/
def webhookPrimaryLookup (user : ClerkUserWebhookData) : Option WebhookEmailAddress :=
  match user.primary_email_address_id with
  | some pid =>
    if pid == "" then none
    else user.email_addresses.find? (fun e => e.id == pid)
  | none => none

/-- userSync.ts `getWebhookPrimaryEmail`: select the primary email when its id
matches, else the first listed entry; a missing entry or an empty
`email_address` yields no email; verification is read from the selected
entry itself. -/
def getWebhookPrimaryEmail (user : ClerkUserWebhookData) : PrimaryEmailData :=
  let selected :=
    match webhookPrimaryLookup user with
    | some p => some p
    | none => user.email_addresses.head?
  match selected with
  | none => { email := none, emailVerified := false }
  | some s =>
    if s.email_address == "" then { email := none, emailVerified := false }
    else { email := some (normalizeEmail s.email_address),
           emailVerified := entryVerified s }

/-- JS `x || null` on an optional string: empty string collapses to null. -/
def emptyToNone : Option String → Option String
  | none => none
  | some s => if s == "" then none else some s

/-- JS `ts ? new Date(ts) : null` on a numeric timestamp: 0 is falsy. -/
def dateFromMs : Option Nat → Option Nat
  | none => none
  | some t => if t == 0 then none else some t

/-- userSync.ts `clerkIdentityFromWebhook`: resolve the primary email (failing
with none when no usable email exists) and assemble the identity. -/
def clerkIdentityFromWebhook (user : ClerkUserWebhookData) : Option ClerkIdentity :=
  let emailData := getWebhookPrimaryEmail user
  match emailData.email with
  | none => none
  | some em =>
    some
      { clerkUserId := user.id.getD "",
        email := em,
        displayName := resolveDisplayName user.first_name user.last_name
          user.username em,
        avatarUrl := emptyToNone user.image_url,
        emailVerified := emailData.emailVerified,
        lastLoginAt := dateFromMs user.last_sign_in_at }

/-! ## IdP API user objects (Clerk backend `User`) -/

/-- One email address object on a Clerk API user. -/
structure ApiEmailAddress where
  emailAddress : String
  verification : Option EmailVerification
deriving DecidableEq

/-- Clerk API user object as read by `clerkIdentityFromUser`; `imageUrl` is a
plain string in the SDK (possibly empty). -/
structure ClerkApiUser where
  id : String
  primaryEmailAddress : Option ApiEmailAddress
  emailAddresses : List ApiEmailAddress
  firstName : Option String
  lastName : Option String
  username : Option String
  imageUrl : String
  lastSignInAt : Option Nat
deriving DecidableEq

/-- `primaryEmailAddress?.verification?.status === "verified"`. -/
def apiPrimaryVerified : Option ApiEmailAddress → Bool
  | none => false
  | some pe =>
    match pe.verification with
    | some v => v.status == some "verified"
    | none => false

/-- userSync.ts `clerkIdentityFromUser`: primary email address, else the first
listed one; an absent or empty result is a failure; the verification flag is
read only from the primary email address. -/
def clerkIdentityFromUser (clerkUser : ClerkApiUser) : Option ClerkIdentity :=
  let primaryEmail : Option String :=
    match clerkUser.primaryEmailAddress with
    | some pe => some pe.emailAddress
    | none =>
      match clerkUser.emailAddresses.head? with
      | some e => some e.emailAddress
      | none => none
  match primaryEmail with
  | none => none
  | some pe =>
    if pe == "" then none
    else
      some
        { clerkUserId := clerkUser.id,
          email := normalizeEmail pe,
          displayName := resolveDisplayName clerkUser.firstName
            clerkUser.lastName clerkUser.username pe,
          avatarUrl := emptyToNone (some clerkUser.imageUrl),
          emailVerified := apiPrimaryVerified clerkUser.primaryEmailAddress,
          lastLoginAt := dateFromMs clerkUser.lastSignInAt }

/-! ## Request session claims (userSync.ts `claimEmail`) -/

/-- A claim value of TypeScript type `unknown`: a string or anything else. -/
inductive ClaimValue where
  | str (s : String)
  | nonString
deriving DecidableEq

/-- The request claims object; `email` and `email_address` keys are read. -/
structure RequestClaims where
  email : Option ClaimValue
  email_address : Option ClaimValue
deriving DecidableEq

/-- `typeof v === "string" && v.trim()`: a string claim with non-blank trim. -/
def claimStringValue : Option ClaimValue → Option String
  | some (ClaimValue.str s) => if jsTrim s != "" then some s else none
  | _ => none

/-- userSync.ts `claimEmail`: the normalized `email` claim when it is a
non-blank string, else the normalized `email_address` claim, else none. -/
def claimEmail (claims : Option RequestClaims) : Option String :=
  match claims with
  | none => none
  | some c =>
    match claimStringValue c.email with
    | some s => some (normalizeEmail s)
    | none =>
      match claimStringValue c.email_address with
      | some s => some (normalizeEmail s)
      | none => none

/-! ## The user table and the Upsert Engine (userSync.ts lines 142-306) -/

/-- One row of the `user` table.  `clerkUserId` is the nullable external id;
`deletedAt` and `lastLoginAt` are epoch milliseconds. -/
structure UserRow where
  id : String
  clerkUserId : Option String
  email : String
  displayName : String
  avatarUrl : Option String
  emailVerified : Bool
  isActive : Bool
  deletedAt : Option Nat
  lastLoginAt : Option Nat
deriving DecidableEq

/-- The user table. -/
abbrev Db := List UserRow

/-- The result shape returned to callers of the sync functions. -/
structure AuthSyncResult where
  id : String
  clerkUserId : String
  email : String
deriving DecidableEq

/-- userSync.ts `AuthSyncError` (message, machine code, HTTP status). -/
structure AuthSyncError where
  message : String
  code : String
  statusCode : Nat
deriving DecidableEq

/-- The `AUTH_IDENTITY_CONFLICT` error thrown by the Upsert Engine. -/
def identityConflictError : AuthSyncError :=
  { message := "Email already linked to another Clerk user",
    code := "AUTH_IDENTITY_CONFLICT", statusCode := 409 }

/-- The `AUTH_USER_INACTIVE` error thrown by the request-time fast path. -/
def userInactiveError : AuthSyncError :=
  { message := "User account is inactive",
    code := "AUTH_USER_INACTIVE", statusCode := 403 }

/-- The `AUTH_CLERK_USER_NOT_ACCESSIBLE` error for permanent IdP failures. -/
def clerkUserNotAccessibleError : AuthSyncError :=
  { message := "Authenticated Clerk user could not be validated",
    code := "AUTH_CLERK_USER_NOT_ACCESSIBLE", statusCode := 401 }

/-- The 401 `AUTH_EMAIL_MISSING` error of `ensureUserForRequest`. -/
def emailMissingRequestError : AuthSyncError :=
  { message := "Authenticated Clerk user is missing a usable email address",
    code := "AUTH_EMAIL_MISSING", statusCode := 401 }

/-- The 400 `AUTH_EMAIL_MISSING` error of `upsertUserFromClerkPayload`. -/
def emailMissingWebhookError : AuthSyncError :=
  { message := "Clerk webhook payload missing a usable email address",
    code := "AUTH_EMAIL_MISSING", statusCode := 400 }

/-- userSync.ts `toAuthSyncResult`: `user.clerkUserId || ""`. -/
def toAuthSyncResult (u : UserRow) : AuthSyncResult :=
  { id := u.id, clerkUserId := (emptyToNone u.clerkUserId).getD "", email := u.email }

/-- Prisma `findUnique` on the unique `clerkUserId` column. -/
def findByClerkUserId (db : Db) (cid : String) : Option UserRow :=
  db.find? (fun u => u.clerkUserId == some cid)

/-- Prisma `findUnique` on the unique `email` column. -/
def findByEmail (db : Db) (e : String) : Option UserRow :=
  db.find? (fun u => u.email == e)

/-- Prisma `update` keyed by primary key `id`: rewrite the matching row. -/
def updateRow (db : Db) (uid : String) (f : UserRow → UserRow) : Db :=
  db.map (fun u => if u.id == uid then f u else u)

/-- The `data` object of the update taken when the row was found by external
id: overwrite the profile fields, force `isActive`, clear `deletedAt`, and
spread `lastLoginAt` only when the identity carries one. -/
def applyProfileToOwner (identity : ClerkIdentity) (u : UserRow) : UserRow :=
  { u with
    email := identity.email,
    displayName := identity.displayName,
    avatarUrl := identity.avatarUrl,
    emailVerified := identity.emailVerified,
    isActive := true,
    deletedAt := none,
    lastLoginAt :=
      match identity.lastLoginAt with
      | some t => some t
      | none => u.lastLoginAt }

/-- The `data` object of the update taken when the row was found by email:
attach the external id and refresh the profile fields (email unchanged). -/
def applyLinkToEmailRow (identity : ClerkIdentity) (u : UserRow) : UserRow :=
  { u with
    clerkUserId := some identity.clerkUserId,
    displayName := identity.displayName,
    avatarUrl := identity.avatarUrl,
    emailVerified := identity.emailVerified,
    isActive := true,
    deletedAt := none,
    lastLoginAt :=
      match identity.lastLoginAt with
      | some t => some t
      | none => u.lastLoginAt }

/-- The `create` data for a brand-new user row. -/
def createdRow (newId : String) (identity : ClerkIdentity) : UserRow :=
  { id := newId,
    clerkUserId := some identity.clerkUserId,
    email := identity.email,
    displayName := identity.displayName,
    avatarUrl := identity.avatarUrl,
    emailVerified := identity.emailVerified,
    isActive := true,
    deletedAt := none,
    lastLoginAt := identity.lastLoginAt }

/-- `byClerkUserId.email !== identity.email` conflict probe of step 2a: a
distinct owner of the incoming email forces the conflict. -/
def ownerEmailConflict (db : Db) (byClerk : UserRow) (identity : ClerkIdentity) : Bool :=
  if byClerk.email != identity.email then
    match findByEmail db identity.email with
    | some emailOwner => emailOwner.id != byClerk.id
    | none => false
  else false

/-- `byEmail.clerkUserId && byEmail.clerkUserId !== identity.clerkUserId`:
a truthy (non-empty) linked external id differing from the incoming one. -/
def conflictsWithIncoming (existing : Option String) (incoming : String) : Bool :=
  match existing with
  | some s => s != "" && s != incoming
  | none => false

/-- The body of the serializable transaction inside `upsertIdentity`
(userSync.ts lines 204-295): look up by external id, then by email, then
create; a thrown `AuthSyncError` aborts the transaction. -/
def upsertIdentityTx (db : Db) (identity : ClerkIdentity) (newId : String) :
    Except AuthSyncError (Db × AuthSyncResult) :=
  match findByClerkUserId db identity.clerkUserId with
  | some byClerk =>
    if ownerEmailConflict db byClerk identity then
      Except.error identityConflictError
    else
      Except.ok (updateRow db byClerk.id (applyProfileToOwner identity),
        toAuthSyncResult (applyProfileToOwner identity byClerk))
  | none =>
    match findByEmail db identity.email with
    | some byEmail =>
      if conflictsWithIncoming byEmail.clerkUserId identity.clerkUserId then
        Except.error identityConflictError
      else
        Except.ok (updateRow db byEmail.id (applyLinkToEmailRow identity),
          toAuthSyncResult (applyLinkToEmailRow identity byEmail))
    | none =>
      Except.ok (db ++ [createdRow newId identity],
        toAuthSyncResult (createdRow newId identity))

/-- `upsertIdentity` under deterministic storage: commit the transaction or
roll it back, leaving the table unchanged on error.  The retry loop of the
source only re-runs on storage-level race errors, which the deterministic
model never produces; the loop itself is modeled by `upsertIdentityRun`. -/
def upsertIdentity (db : Db) (identity : ClerkIdentity) (newId : String) :
    Db × Except AuthSyncError AuthSyncResult :=
  match upsertIdentityTx db identity newId with
  | Except.ok (dbNew, r) => (dbNew, Except.ok r)
  | Except.error e => (db, Except.error e)

/-! ## The retry loop and its predicate (userSync.ts lines 154-177, 201-306) -/

/-- A storage-layer error: an optional Prisma error code and a message. -/
structure StorageError where
  code : Option String
  message : String
deriving DecidableEq

/-- `MAX_UPSERT_RETRIES`. -/
def MAX_UPSERT_RETRIES : Nat := 3

/-- userSync.ts `isRetryableUpsertError`: a Prisma code in the retryable set
(`P2002`, `P2034`), or a lower-cased message containing one of the
serialization/deadlock markers. -/
def isRetryableUpsertError (e : StorageError) : Bool :=
  (match e.code with
   | some c => c == "P2002" || c == "P2034"
   | none => false)
  || (let m := jsToLower e.message
      hasSubStr "could not serialize access" m
      || hasSubStr "serialization" m
      || hasSubStr "deadlock detected" m)

/-- The `for` loop of `upsertIdentity` over abstract per-attempt outcomes
`f : Nat → Except StorageError R`: attempt, and on a retryable error before
the last allowed attempt, try again; `none` models the unreachable throw
after the loop. -/
def upsertRetryGo {R : Type} (f : Nat → Except StorageError R) :
    Nat → Nat → Option (Except StorageError R)
  | _, 0 => none
  | attempt, fuel + 1 =>
    match f attempt with
    | Except.ok r => some (Except.ok r)
    | Except.error e =>
      if attempt == MAX_UPSERT_RETRIES || !isRetryableUpsertError e then
        some (Except.error e)
      else upsertRetryGo f (attempt + 1) fuel

/-- The whole retry loop: attempts numbered 1 to `MAX_UPSERT_RETRIES`. -/
def upsertIdentityRun {R : Type} (f : Nat → Except StorageError R) :
    Option (Except StorageError R) :=
  upsertRetryGo f 1 MAX_UPSERT_RETRIES

/-! ## Request-time sync (userSync.ts lines 179-199, 308-390) -/

/-- An IdP lookup failure object: optional numeric `status` and `statusCode`
fields (non-numeric fields are modeled as absent). -/
structure LookupError where
  status : Option Nat
  statusCode : Option Nat
deriving DecidableEq

/-- userSync.ts `clerkLookupStatus`: the `status` field when numeric, else the
`statusCode` field when numeric, else null. -/
def clerkLookupStatus (e : LookupError) : Option Nat :=
  match e.status with
  | some s => some s
  | none => e.statusCode

/-- userSync.ts `isPermanentClerkLookupError`: status 403 or 404. -/
def isPermanentClerkLookupError (status : Option Nat) : Bool :=
  status == some 403 || status == some 404

/-- The claims-fallback identity built when the IdP is unreachable. -/
def claimsFallbackIdentity (clerkUserId email : String) : ClerkIdentity :=
  { clerkUserId := clerkUserId,
    email := email,
    displayName := resolveDisplayName none none none email,
    avatarUrl := none,
    emailVerified := false,
    lastLoginAt := none }

/-- The try/catch around `clerkClient.users.getUser`: a successful lookup is
resolved through `clerkIdentityFromUser`; a permanent failure is fatal; any
other failure is swallowed, leaving no identity. -/
def lookupIdentityStep (lookup : Except LookupError ClerkApiUser) :
    Except AuthSyncError (Option ClerkIdentity) :=
  match lookup with
  | Except.ok u => Except.ok (clerkIdentityFromUser u)
  | Except.error e =>
    if isPermanentClerkLookupError (clerkLookupStatus e) then
      Except.error clerkUserNotAccessibleError
    else
      Except.ok none

/-- userSync.ts `ensureUserForRequest`: fast-path on an existing local user
(which must be active and not soft-deleted), else IdP lookup, else claims
fallback, funneling into the Upsert Engine.  The IdP call is passed in as its
outcome `lookup`. -/
def ensureUserForRequest (db : Db) (clerkUserId : String)
    (claims : Option RequestClaims) (lookup : Except LookupError ClerkApiUser)
    (newId : String) : Db × Except AuthSyncError AuthSyncResult :=
  match findByClerkUserId db clerkUserId with
  | some existing =>
    if !existing.isActive || existing.deletedAt.isSome then
      (db, Except.error userInactiveError)
    else
      (db, Except.ok (toAuthSyncResult existing))
  | none =>
    match lookupIdentityStep lookup with
    | Except.error e => (db, Except.error e)
    | Except.ok identityOpt =>
      match identityOpt with
      | some identity => upsertIdentity db identity newId
      | none =>
        match claimEmail claims with
        | none => (db, Except.error emailMissingRequestError)
        | some email =>
          upsertIdentity db (claimsFallbackIdentity clerkUserId email) newId

/-! ## Webhook sync (userSync.ts lines 392-428) -/

/-- The three supported lifecycle event types. -/
inductive WebhookEventType where
  | created
  | updated
  | deleted
deriving DecidableEq

/-- A supported Clerk webhook event. -/
structure ClerkWebhookEvent where
  type : WebhookEventType
  data : ClerkUserWebhookData
deriving DecidableEq

/-- JS falsiness of the optional `event.data.id` string. -/
def idFalsy : Option String → Bool
  | none => true
  | some s => s == ""

/-- userSync.ts `upsertUserFromClerkPayload`.  The returned Nat counts the
warnings recorded by this function (the malformed `user.deleted` path).
`user.deleted` soft-deletes every row matching the external id via
`updateMany` (zero matches is not an error); other events resolve an identity
and funnel into the Upsert Engine. -/
def upsertUserFromClerkPayload (db : Db) (now : Nat) (event : ClerkWebhookEvent)
    (newId : String) : Except AuthSyncError (Db × Nat) :=
  match event.type with
  | WebhookEventType.deleted =>
    if idFalsy event.data.id then Except.ok (db, 1)
    else
      Except.ok
        (db.map (fun u =>
          if u.clerkUserId == event.data.id then
            { u with isActive := false, deletedAt := some now }
          else u), 0)
  | _ =>
    match clerkIdentityFromWebhook event.data with
    | none => Except.error emailMissingWebhookError
    | some identity =>
      match upsertIdentityTx db identity newId with
      | Except.ok (dbNew, _) => Except.ok (dbNew, 0)
      | Except.error e => Except.error e

/-! ## The webhook route (routes/webhooks/clerk.ts lines 45-101) -/

/-- A processing failure seen by the route: a typed `AuthSyncError` or any
other thrown error. -/
inductive RouteFailure where
  | authSync (e : AuthSyncError)
  | generic
deriving DecidableEq

/-- The observable outcome of the route after signature verification, for a
supported event: the HTTP status, the body error code (none on success), and
whether the idempotency reservation was released. -/
structure RouteResult where
  status : Nat
  code : Option String
  reservationReleased : Bool
deriving DecidableEq

/-- The reserve-process-respond sequence of `clerkWebhookRoutes` in
routes/webhooks/clerk.ts: a failed reservation short-circuits as a duplicate;
after a successful reservation, the catch block releases the reservation on
EVERY failure (`if processingReserved` precedes the status dispatch) and then
maps a sub-500 `AuthSyncError` to its own status and any other error to 500. -/
def clerkWebhookProcess (reserveOk : Bool) (outcome : Option RouteFailure) :
    RouteResult :=
  if !reserveOk then
    { status := 200, code := none, reservationReleased := false }
  else
    match outcome with
    | none => { status := 200, code := none, reservationReleased := false }
    | some err =>
      match err with
      | RouteFailure.authSync e =>
        if e.statusCode < 500 then
          { status := e.statusCode, code := some e.code,
            reservationReleased := true }
        else
          { status := 500, code := some "WEBHOOK_PROCESSING_FAILED",
            reservationReleased := true }
      | RouteFailure.generic =>
        { status := 500, code := some "WEBHOOK_PROCESSING_FAILED",
          reservationReleased := true }

/-! ## Claim C1 -/

/-- A pre-existing legacy/local account: no linked external id. -/
def legacyRowC1 : UserRow :=
  { id := "legacy_user", clerkUserId := none, email := "legacy@example.com",
    displayName := "Legacy", avatarUrl := none, emailVerified := true,
    isActive := true, deletedAt := none, lastLoginAt := none }

/-- The single listed email of the C1 payload: unverified. -/
def emailEntryC1 : WebhookEmailAddress :=
  { id := "email_1", email_address := "legacy@example.com",
    verification := some { status := some "unverified" } }

/-- A `user.created` webhook payload whose only email matches the legacy row
and is explicitly unverified. -/
def webhookDataC1 : ClerkUserWebhookData :=
  { id := some "clerk_new", first_name := some "New", last_name := some "User",
    username := none, image_url := none, last_sign_in_at := none,
    primary_email_address_id := some "email_1",
    email_addresses := [emailEntryC1] }

/-- The row after the upsert: the external id was linked anyway. -/
def linkedRowC1 : UserRow :=
  { id := "legacy_user", clerkUserId := some "clerk_new",
    email := "legacy@example.com", displayName := "New User",
    avatarUrl := none, emailVerified := false, isActive := true,
    deletedAt := none, lastLoginAt := none }

/-- Claim C1 (code bug evidence): the spec and the repository test suite
require an upsert that would link an external id to a legacy (externalId-less)
account via an UNVERIFIED email to fail with `EmailVerificationRequired`
(403, `AUTH_EMAIL_VERIFICATION_REQUIRED`) without linking.  The code has no
such check: on this concrete input the resolved identity carries
`emailVerified = false`, yet the upsert succeeds and attaches the incoming
external id to the legacy row. -/
theorem legacy_link_ignores_unverified_email :
    upsertUserFromClerkPayload [legacyRowC1] 0
      { type := WebhookEventType.created, data := webhookDataC1 } "row_new"
      = Except.ok ([linkedRowC1], 0)
    ∧ (clerkIdentityFromWebhook webhookDataC1).map ClerkIdentity.emailVerified
      = some false
    ∧ linkedRowC1.clerkUserId = some "clerk_new" :=
  ⟨rfl, rfl, rfl⟩

/-! ## Claim C2 -/

/-- A soft-deleted user: `isActive = false`, `deletedAt` set. -/
def softDeletedRowC2 : UserRow :=
  { id := "user_1", clerkUserId := some "clerk_1", email := "user@example.com",
    displayName := "Old Name", avatarUrl := none, emailVerified := false,
    isActive := false, deletedAt := some 100, lastLoginAt := none }

/-- The single listed email of the C2 payload: verified. -/
def emailEntryC2 : WebhookEmailAddress :=
  { id := "email_1", email_address := "user@example.com",
    verification := some { status := some "verified" } }

/-- A `user.updated` webhook payload for the same external id. -/
def webhookDataC2 : ClerkUserWebhookData :=
  { id := some "clerk_1", first_name := some "User", last_name := some "One",
    username := none, image_url := none, last_sign_in_at := none,
    primary_email_address_id := some "email_1",
    email_addresses := [emailEntryC2] }

/-- The row after the event: the soft-delete pair was wiped. -/
def resurrectedRowC2 : UserRow :=
  { id := "user_1", clerkUserId := some "clerk_1", email := "user@example.com",
    displayName := "User One", avatarUrl := none, emailVerified := true,
    isActive := true, deletedAt := none, lastLoginAt := none }

/-- Claim C2 (code bug evidence): the spec invariant and the repository test
suite require a `user.updated` event on a soft-deleted user to change only the
profile fields and leave `isActive`/`deletedAt` untouched.  The update data of
the code unconditionally includes `isActive = true` and `deletedAt = null`:
on this concrete input the soft-deleted user is resurrected. -/
theorem user_updated_resurrects_soft_deleted :
    upsertUserFromClerkPayload [softDeletedRowC2] 500
      { type := WebhookEventType.updated, data := webhookDataC2 } "row_new"
      = Except.ok ([resurrectedRowC2], 0)
    ∧ softDeletedRowC2.isActive = false
    ∧ softDeletedRowC2.deletedAt = some 100
    ∧ resurrectedRowC2.isActive = true
    ∧ resurrectedRowC2.deletedAt = none :=
  ⟨rfl, rfl, rfl, rfl, rfl⟩

/-! ## Claim C3 -/

/-- Claim C3 (code bug evidence): the spec and the webhook route test require
the idempotency reservation to be kept on a 4xx-class failure and released
only on 5xx-class failures.  The catch block of the route deletes the
reservation before dispatching on the error class, so a 400
`AUTH_EMAIL_MISSING` failure also releases it — shown here on the concrete
processing outcome, together with the 5xx and success cases for contrast. -/
theorem webhook_route_releases_reservation_on_4xx :
    clerkWebhookProcess true (some (RouteFailure.authSync emailMissingWebhookError))
      = { status := 400, code := some "AUTH_EMAIL_MISSING",
          reservationReleased := true }
    ∧ clerkWebhookProcess true (some RouteFailure.generic)
      = { status := 500, code := some "WEBHOOK_PROCESSING_FAILED",
          reservationReleased := true }
    ∧ clerkWebhookProcess true none
      = { status := 200, code := none, reservationReleased := false } :=
  ⟨rfl, rfl, rfl⟩

/-! ## Claim C4 -/

/-- Claim C4: when no user owns the incoming external id and the incoming
email is owned by a user whose linked external id is non-empty and different,
the upsert fails with `IdentityConflict` (409, `AUTH_IDENTITY_CONFLICT`) and
the table is returned unchanged: the aborted transaction modifies nothing. -/
theorem upsert_conflict_leaves_db_unchanged
    (db : Db) (identity : ClerkIdentity) (A : UserRow) (e1 newId : String)
    (h0 : findByClerkUserId db identity.clerkUserId = none)
    (h1 : findByEmail db identity.email = some A)
    (h2 : A.clerkUserId = some e1)
    (h3 : e1 ≠ "") (h4 : e1 ≠ identity.clerkUserId) :
    upsertIdentity db identity newId = (db, Except.error identityConflictError) := by
  have hc : conflictsWithIncoming A.clerkUserId identity.clerkUserId = true := by
    rw [h2]
    simp only [conflictsWithIncoming, Bool.and_eq_true, bne_iff_ne, ne_eq]
    exact ⟨h3, h4⟩
  unfold upsertIdentity upsertIdentityTx
  simp [h0, h1, hc]

/-- Existing user A of claim C4, owning the email with external id E1. -/
def rowAC4 : UserRow :=
  { id := "user_a", clerkUserId := some "E1", email := "x@y.com",
    displayName := "A", avatarUrl := none, emailVerified := true,
    isActive := true, deletedAt := none, lastLoginAt := none }

/-- Incoming identity of claim C4 with external id E2 and the same email. -/
def identityC4 : ClerkIdentity :=
  { clerkUserId := "E2", email := "x@y.com", displayName := "B",
    avatarUrl := none, emailVerified := true, lastLoginAt := none }

/-- Witness for claim C4 at a concrete table and identity. -/
theorem upsert_conflict_witness :
    upsertIdentity [rowAC4] identityC4 "new_row"
      = ([rowAC4], Except.error identityConflictError) :=
  upsert_conflict_leaves_db_unchanged [rowAC4] identityC4 rowAC4 "E1" "new_row"
    rfl rfl rfl (by decide) (by decide)

/-! ## Claim C5 -/

/-- Closed form of the three-attempt retry loop, obtained by unrolling
`upsertRetryGo` at its fixed budget. -/
theorem upsertIdentityRun_eq {R : Type} (f : Nat → Except StorageError R) :
    upsertIdentityRun f =
      match f 1 with
      | Except.ok r => some (Except.ok r)
      | Except.error e1 =>
        if !isRetryableUpsertError e1 then some (Except.error e1)
        else
          match f 2 with
          | Except.ok r => some (Except.ok r)
          | Except.error e2 =>
            if !isRetryableUpsertError e2 then some (Except.error e2)
            else
              match f 3 with
              | Except.ok r => some (Except.ok r)
              | Except.error e3 => some (Except.error e3) := rfl

/-- Claim C5: the retry loop consults at most the attempts numbered 1, 2, 3
(its result is determined by them alone); a first ok outcome is returned; a
non-retryable failure is rethrown unchanged without further attempts;
three retryable failures rethrow the third underlying error unchanged; and
the synthetic unreachable error after the loop is never surfaced. -/
theorem upsert_retry_budget_contract :
    (∀ (R : Type) (f g : Nat → Except StorageError R),
      f 1 = g 1 → f 2 = g 2 → f 3 = g 3 →
      upsertIdentityRun f = upsertIdentityRun g)
    ∧ (∀ (R : Type) (f : Nat → Except StorageError R) (r : R),
      f 1 = Except.ok r → upsertIdentityRun f = some (Except.ok r))
    ∧ (∀ (R : Type) (f : Nat → Except StorageError R) (e : StorageError),
      f 1 = Except.error e → isRetryableUpsertError e = false →
      upsertIdentityRun f = some (Except.error e))
    ∧ (∀ (R : Type) (f : Nat → Except StorageError R) (e1 e2 e3 : StorageError),
      f 1 = Except.error e1 → isRetryableUpsertError e1 = true →
      f 2 = Except.error e2 → isRetryableUpsertError e2 = true →
      f 3 = Except.error e3 →
      upsertIdentityRun f = some (Except.error e3))
    ∧ (∀ (R : Type) (f : Nat → Except StorageError R),
      upsertIdentityRun f ≠ none) := by
  refine ⟨?_, ?_, ?_, ?_, ?_⟩
  · intro R f g h1 h2 h3
    rw [upsertIdentityRun_eq, upsertIdentityRun_eq, h1, h2, h3]
  · intro R f r h1
    rw [upsertIdentityRun_eq, h1]
  · intro R f e h1 hr
    rw [upsertIdentityRun_eq, h1]
    simp [hr]
  · intro R f e1 e2 e3 h1 hr1 h2 hr2 h3
    rw [upsertIdentityRun_eq, h1]
    simp only [hr1, Bool.not_true, Bool.false_eq_true, if_false]
    rw [h2]
    simp only [hr2, Bool.not_true, Bool.false_eq_true, if_false]
    rw [h3]
  · intro R f
    rw [upsertIdentityRun_eq]
    cases h1 : f 1 with
    | ok r => simp
    | error e1 =>
      cases hr1 : isRetryableUpsertError e1 with
      | false => simp [hr1]
      | true =>
        cases h2 : f 2 with
        | ok r => simp [hr1]
        | error e2 =>
          cases hr2 : isRetryableUpsertError e2 with
          | false => simp [hr1, hr2]
          | true =>
            cases h3 : f 3 with
            | ok r => simp [hr1, hr2]
            | error e3 => simp [hr1, hr2]

/-- A retryable uniqueness-violation storage error (Prisma code P2002). -/
def p2002Error : StorageError :=
  { code := some "P2002", message := "Unique constraint violation" }

/-- Witness for claim C5: three straight P2002 races exhaust the budget and
surface the third underlying error itself. -/
theorem upsert_retry_budget_witness :
    upsertIdentityRun (fun _ => (Except.error p2002Error : Except StorageError Nat))
      = some (Except.error p2002Error) :=
  upsert_retry_budget_contract.2.2.2.1 Nat
    (fun _ => Except.error p2002Error) p2002Error p2002Error p2002Error
    rfl rfl rfl rfl rfl

/-! ## Claim C6 -/

/-- Claim C6: with no existing local user, a lookup failure is permanent
exactly when its resolved status is 403 or 404; a permanent failure yields
`ClerkUserNotAccessible` (401) for every claims object (claims are never
consulted); any other lookup failure falls back to the claims email when one
is present, upserting the claims-derived identity; and when neither source
yields an email the call fails with `EmailMissing`. -/
theorem ensure_user_lookup_failure_contract :
    (∀ s : Option Nat,
      isPermanentClerkLookupError s = true ↔ (s = some 403 ∨ s = some 404))
    ∧ clerkUserNotAccessibleError.statusCode = 401
    ∧ (∀ (db : Db) (cid : String) (claims : Option RequestClaims)
        (err : LookupError) (newId : String),
      findByClerkUserId db cid = none →
      isPermanentClerkLookupError (clerkLookupStatus err) = true →
      ensureUserForRequest db cid claims (Except.error err) newId
        = (db, Except.error clerkUserNotAccessibleError))
    ∧ (∀ (db : Db) (cid : String) (claims : Option RequestClaims)
        (err : LookupError) (newId em : String),
      findByClerkUserId db cid = none →
      isPermanentClerkLookupError (clerkLookupStatus err) = false →
      claimEmail claims = some em →
      ensureUserForRequest db cid claims (Except.error err) newId
        = upsertIdentity db (claimsFallbackIdentity cid em) newId)
    ∧ (∀ (db : Db) (cid : String) (claims : Option RequestClaims)
        (err : LookupError) (newId : String),
      findByClerkUserId db cid = none →
      isPermanentClerkLookupError (clerkLookupStatus err) = false →
      claimEmail claims = none →
      ensureUserForRequest db cid claims (Except.error err) newId
        = (db, Except.error emailMissingRequestError)) := by
  refine ⟨?_, rfl, ?_, ?_, ?_⟩
  · intro s
    cases s with
    | none => simp [isPermanentClerkLookupError]
    | some n =>
      simp only [isPermanentClerkLookupError, Bool.or_eq_true, beq_iff_eq,
        Option.some.injEq]
  · intro db cid claims err newId h0 hp
    unfold ensureUserForRequest lookupIdentityStep
    simp [h0, hp]
  · intro db cid claims err newId em h0 hp hc
    unfold ensureUserForRequest lookupIdentityStep
    simp [h0, hp, hc]
  · intro db cid claims err newId h0 hp hc
    unfold ensureUserForRequest lookupIdentityStep
    simp [h0, hp, hc]

/-- A 404 lookup failure object. -/
def notFoundLookupError : LookupError := { status := some 404, statusCode := none }

/-- Claims carrying a usable email, which the permanent-failure path must
ignore. -/
def claimsC6 : RequestClaims :=
  { email := some (ClaimValue.str "fallback@example.com"), email_address := none }

/-- Witness for claim C6: a 404 lookup failure on an empty table fails with
`ClerkUserNotAccessible` even though the claims carry a usable email. -/
theorem ensure_user_lookup_failure_witness :
    ensureUserForRequest [] "clerk_1" (some claimsC6)
      (Except.error notFoundLookupError) "new_row"
      = ([], Except.error clerkUserNotAccessibleError) :=
  ensure_user_lookup_failure_contract.2.2.1 [] "clerk_1" (some claimsC6)
    notFoundLookupError "new_row" rfl rfl

/-! ## Claim C7 -/

/-- Claim C7: a `user.deleted` event without a usable external id returns
success with no write and one warning recorded; with an external id present,
the function returns success with the table rewritten so that every row
matching that id gets `isActive = false` and `deletedAt = now` while every
other row is untouched — in particular an update matching zero rows is still
a success. -/
theorem user_deleted_webhook_contract :
    (∀ (db : Db) (now : Nat) (d : ClerkUserWebhookData) (newId : String),
      idFalsy d.id = true →
      upsertUserFromClerkPayload db now
        { type := WebhookEventType.deleted, data := d } newId
        = Except.ok (db, 1))
    ∧ (∀ (db : Db) (now : Nat) (d : ClerkUserWebhookData) (newId s : String),
      d.id = some s → s ≠ "" →
      upsertUserFromClerkPayload db now
        { type := WebhookEventType.deleted, data := d } newId
        = Except.ok
            (db.map (fun u =>
              if u.clerkUserId == some s then
                { u with isActive := false, deletedAt := some now }
              else u), 0)) := by
  constructor
  · intro db now d newId hid
    unfold upsertUserFromClerkPayload
    simp [hid]
  · intro db now d newId s hid hs
    have hfalsy : idFalsy (some s) = false := by
      simpa [idFalsy] using hs
    unfold upsertUserFromClerkPayload
    simp [hid, hfalsy]

/-- A webhook payload whose external id field is absent. -/
def deletedNoIdData : ClerkUserWebhookData :=
  { id := none, first_name := none, last_name := none, username := none,
    image_url := none, last_sign_in_at := none,
    primary_email_address_id := none, email_addresses := [] }

/-- A webhook payload deleting the external id of `rowC7`. -/
def deletedWithIdData : ClerkUserWebhookData :=
  { id := some "clerk_7", first_name := none, last_name := none,
    username := none, image_url := none, last_sign_in_at := none,
    primary_email_address_id := none, email_addresses := [] }

/-- An active row owned by the external id deleted in the C7 witness. -/
def rowC7 : UserRow :=
  { id := "user_7", clerkUserId := some "clerk_7", email := "u7@example.com",
    displayName := "U Seven", avatarUrl := none, emailVerified := true,
    isActive := true, deletedAt := none, lastLoginAt := some 5 }

/-- Witness for claim C7: the id-less event warns without writing, and the
id-bearing event soft-deletes the matching row. -/
theorem user_deleted_webhook_witness :
    upsertUserFromClerkPayload [rowC7] 900
      { type := WebhookEventType.deleted, data := deletedNoIdData } "new_row"
      = Except.ok ([rowC7], 1)
    ∧ upsertUserFromClerkPayload [rowC7] 900
      { type := WebhookEventType.deleted, data := deletedWithIdData } "new_row"
      = Except.ok
          ([rowC7].map (fun u =>
            if u.clerkUserId == some "clerk_7" then
              { u with isActive := false, deletedAt := some 900 }
            else u), 0) :=
  ⟨user_deleted_webhook_contract.1 [rowC7] 900 deletedNoIdData "new_row" rfl,
   user_deleted_webhook_contract.2 [rowC7] 900 deletedWithIdData "new_row"
     "clerk_7" rfl (by decide)⟩

/-! ## Claim C8 -/

/-- Claim C8: the display-name resolution chain — the trimmed concatenation
of first and last name when non-empty; else the trimmed username when
non-empty; else the formatted email local part (separator runs replaced by
spaces, each word capitalized — the body of `formatDisplayName`) when
non-empty; else the literal "User"; and concretely `jane.doe@x.com` with no
names resolves to "Jane Doe". -/
theorem display_name_resolution_chain :
    (∀ (fn ln un : Option String) (email : String),
      jsTrim ((fn.getD "") ++ " " ++ (ln.getD "")) ≠ "" →
      resolveDisplayName fn ln un email
        = jsTrim ((fn.getD "") ++ " " ++ (ln.getD "")))
    ∧ (∀ (fn ln : Option String) (u email : String),
      jsTrim ((fn.getD "") ++ " " ++ (ln.getD "")) = "" →
      jsTrim u ≠ "" →
      resolveDisplayName fn ln (some u) email = jsTrim u)
    ∧ (∀ (fn ln un : Option String) (email : String),
      jsTrim ((fn.getD "") ++ " " ++ (ln.getD "")) = "" →
      (∀ u, un = some u → jsTrim u = "") →
      formatDisplayName (emailLocalPart email) ≠ "" →
      resolveDisplayName fn ln un email
        = formatDisplayName (emailLocalPart email))
    ∧ (∀ (fn ln un : Option String) (email : String),
      jsTrim ((fn.getD "") ++ " " ++ (ln.getD "")) = "" →
      (∀ u, un = some u → jsTrim u = "") →
      formatDisplayName (emailLocalPart email) = "" →
      resolveDisplayName fn ln un email = "User")
    ∧ resolveDisplayName none none none "jane.doe@x.com" = "Jane Doe" := by
  refine ⟨?_, ?_, ?_, ?_, rfl⟩
  · intro fn ln un email hname
    unfold resolveDisplayName
    simp [hname]
  · intro fn ln u email hname hu
    unfold resolveDisplayName
    simp [hname, hu]
  · intro fn ln un email hname hun hfmt
    unfold resolveDisplayName displayNameFromEmail
    cases un with
    | none => simp [hname, hfmt]
    | some u =>
      have hu := hun u rfl
      simp [hname, hu, hfmt]
  · intro fn ln un email hname hun hfmt
    unfold resolveDisplayName displayNameFromEmail
    cases un with
    | none => simp [hname, hfmt]
    | some u =>
      have hu := hun u rfl
      simp [hname, hu, hfmt]

/-- Witness for claim C8: concrete inputs exercise the name tier and the
username tier of the chain. -/
theorem display_name_resolution_witness :
    resolveDisplayName (some "Jane") (some "Doe") none "j@x.com"
      = jsTrim ("Jane" ++ " " ++ "Doe")
    ∧ resolveDisplayName none none (some " neo ") "j@x.com" = jsTrim " neo " :=
  ⟨display_name_resolution_chain.1 (some "Jane") (some "Doe") none "j@x.com"
      (by decide),
   display_name_resolution_chain.2.1 none none " neo " "j@x.com"
      (by decide) (by decide)⟩

/-! ## Claim C9 -/

/-- Claim C9: when the API user object has no primary email address but a
non-empty email list (with a usable first address), the resolver takes the
first listed email as the identity email, yet the verification flag — read
only from the primary email address — is false regardless of the listed
entry's own status. -/
theorem api_identity_first_email_never_verified
    (u : ClerkApiUser) (e : ApiEmailAddress) (rest : List ApiEmailAddress)
    (hp : u.primaryEmailAddress = none)
    (hl : u.emailAddresses = e :: rest)
    (hne : e.emailAddress ≠ "") :
    clerkIdentityFromUser u
      = some { clerkUserId := u.id,
               email := normalizeEmail e.emailAddress,
               displayName := resolveDisplayName u.firstName u.lastName
                 u.username e.emailAddress,
               avatarUrl := emptyToNone (some u.imageUrl),
               emailVerified := false,
               lastLoginAt := dateFromMs u.lastSignInAt } := by
  unfold clerkIdentityFromUser
  simp [hp, hl, apiPrimaryVerified, hne]

/-- The only listed email of the C9 witness user: itself verified. -/
def apiEmailC9 : ApiEmailAddress :=
  { emailAddress := "nine@example.com",
    verification := some { status := some "verified" } }

/-- The C9 witness user: no primary email address, one verified listed one. -/
def apiUserC9 : ClerkApiUser :=
  { id := "clerk_9", primaryEmailAddress := none,
    emailAddresses := [apiEmailC9], firstName := none, lastName := none,
    username := none, imageUrl := "", lastSignInAt := none }

/-- Witness for claim C9: the verified listed email is selected, yet the
resulting identity is unverified. -/
theorem api_identity_first_email_witness :
    clerkIdentityFromUser apiUserC9
      = some { clerkUserId := "clerk_9", email := "nine@example.com",
               displayName := "Nine", avatarUrl := none,
               emailVerified := false, lastLoginAt := none } :=
  api_identity_first_email_never_verified apiUserC9 apiEmailC9 [] rfl rfl
    (by decide)

/-! ## Claim C10 -/

/-- Claim C10 as amended: when `primary_email_address_id` is set but matches
no entry, the resolver falls back to the FIRST listed entry; when that entry
has a non-empty address, the identity uses it with that entry's own
verification status; and the resolution fails (yielding `EmailMissing`
upstream) exactly when the email list is empty or its first entry's address
is the empty string — the fallback never scans past the first entry. -/
theorem webhook_primary_miss_contract
    (d : ClerkUserWebhookData) (pid : String)
    (hpid : d.primary_email_address_id = some pid)
    (hmiss : d.email_addresses.find? (fun e => e.id == pid) = none) :
    (d.email_addresses = [] →
      getWebhookPrimaryEmail d = { email := none, emailVerified := false }
      ∧ clerkIdentityFromWebhook d = none)
    ∧ (∀ e rest, d.email_addresses = e :: rest → e.email_address ≠ "" →
      getWebhookPrimaryEmail d
        = { email := some (normalizeEmail e.email_address),
            emailVerified := entryVerified e }
      ∧ clerkIdentityFromWebhook d
        = some { clerkUserId := d.id.getD "",
                 email := normalizeEmail e.email_address,
                 displayName := resolveDisplayName d.first_name d.last_name
                   d.username (normalizeEmail e.email_address),
                 avatarUrl := emptyToNone d.image_url,
                 emailVerified := entryVerified e,
                 lastLoginAt := dateFromMs d.last_sign_in_at })
    ∧ (∀ e rest, d.email_addresses = e :: rest → e.email_address = "" →
      getWebhookPrimaryEmail d = { email := none, emailVerified := false }
      ∧ clerkIdentityFromWebhook d = none) := by
  have hlook : webhookPrimaryLookup d = none := by
    unfold webhookPrimaryLookup
    rw [hpid]
    cases hb : (pid == "") with
    | true => simp [hb]
    | false => simp [hb, hmiss]
  refine ⟨?_, ?_, ?_⟩
  · intro hnil
    unfold clerkIdentityFromWebhook getWebhookPrimaryEmail
    simp [hlook, hnil]
  · intro e rest hl hne
    unfold clerkIdentityFromWebhook getWebhookPrimaryEmail
    simp [hlook, hl, hne]
  · intro e rest hl he
    unfold clerkIdentityFromWebhook getWebhookPrimaryEmail
    simp [hlook, hl, he]

/-- First listed entry of the C10 counterexample: an empty address. -/
def cxEmptyFirstEntry : WebhookEmailAddress :=
  { id := "e1", email_address := "", verification := none }

/-- Second listed entry of the C10 counterexample: a real, verified email. -/
def cxSecondEntry : WebhookEmailAddress :=
  { id := "e2", email_address := "x@y.com",
    verification := some { status := some "verified" } }

/-- The C10 counterexample payload: a dangling primary id and a non-empty
email list whose first entry has an empty address. -/
def cxWebhookData : ClerkUserWebhookData :=
  { id := some "user_cx", first_name := none, last_name := none,
    username := none, image_url := none, last_sign_in_at := none,
    primary_email_address_id := some "nope",
    email_addresses := [cxEmptyFirstEntry, cxSecondEntry] }

/-- Counterexample to claim C10 as stated: the primary id is set and matches
no entry, an email address IS present in the list (the second entry), yet
resolution yields no identity and the webhook sync fails with the 400
`AUTH_EMAIL_MISSING` error — the fallback inspects only the first entry. -/
theorem webhook_primary_miss_counterexample :
    cxWebhookData.primary_email_address_id = some "nope"
    ∧ cxWebhookData.email_addresses.find? (fun e => e.id == "nope") = none
    ∧ cxWebhookData.email_addresses.any (fun e => e.email_address != "") = true
    ∧ clerkIdentityFromWebhook cxWebhookData = none
    ∧ upsertUserFromClerkPayload [] 0
        { type := WebhookEventType.created, data := cxWebhookData } "new_row"
        = Except.error emailMissingWebhookError :=
  ⟨rfl, rfl, rfl, rfl, rfl⟩

/-- The single listed entry of the C10 witness payload: verified. -/
def wEntryC10 : WebhookEmailAddress :=
  { id := "e1", email_address := "first@y.com",
    verification := some { status := some "verified" } }

/-- The payload of the C10 witness: a dangling primary id over a single
verified entry. -/
def wDataC10 : ClerkUserWebhookData :=
  { id := some "user_w", first_name := none, last_name := none,
    username := none, image_url := none, last_sign_in_at := none,
    primary_email_address_id := some "nope",
    email_addresses := [wEntryC10] }

/-- Witness for the amended claim C10: the dangling primary id falls back to
the first listed entry, keeping that entry's own verification status. -/
theorem webhook_primary_miss_witness :
    getWebhookPrimaryEmail wDataC10
      = { email := some "first@y.com", emailVerified := true }
    ∧ clerkIdentityFromWebhook wDataC10
      = some { clerkUserId := "user_w", email := "first@y.com",
               displayName := "First", avatarUrl := none,
               emailVerified := true, lastLoginAt := none } :=
  (webhook_primary_miss_contract wDataC10 "nope" rfl rfl).2.1
    wEntryC10 [] rfl (by decide)

end Hestia
